import Mathlib

/-!
Shallow embedding of the page-by-page document analysis pipeline of
`streamlit_app.py` (function `process_pdf` and the results / summary /
report section of the PDF branch).

External capabilities are modelled as explicit function arguments:
* the document decode capability (`fitz.open` plus per-page
  `load_page` / `get_pixmap` / `tobytes` / `Image.open`) becomes an
  `Except`-valued open result and a per-page render function;
* the inference capability (`client.models.generate_content`) becomes an
  `Except`-valued function of its contents (prompt and image bytes);
* the temporary-file side effects (`tempfile.NamedTemporaryFile` with
  `delete=False`, and `os.unlink`) become explicit state passing over a
  small file-system record.
-/

namespace JFKAnalyzer

/-- One entry of the `results` list built by `process_pdf`: the dictionary
`{"page_num": ..., "analysis": ..., "image": ...}`. -/
structure AnalysisResult where
  page_num : Nat
  analysis : String
  image : String
deriving Repr, DecidableEq

/-- The document decode capability after a successful `fitz.open`:
`page_count`, and per page the composite of `load_page`, `get_pixmap`
and `tobytes("png")` (any raised exception is the `Except.error` case,
carrying `str(e)`). -/
structure PdfDoc where
  page_count : Nat
  render : Nat → Except String String

/-- The ambient file-system state threaded through a run: the set of
temporary files currently on disk, and a counter supplying the next fresh
temporary path (`tempfile.NamedTemporaryFile` names paths; we model paths
as naturals). -/
structure FS where
  tempFiles : List Nat
  nextPath : Nat
deriving Repr, DecidableEq

/-- Everything observable about one `process_pdf` call: the returned
`results` list, the file-system state on return, the `st.error` message if
one was displayed, and the sequence of `progress_bar.progress` updates
(recorded as the pair `(page_num + 1, pages_to_analyze)` whose quotient the
code passes). -/
structure RunOutput where
  results : List AnalysisResult
  fs : FS
  errorMsg : Option String
  progress : List (Nat × Nat)
deriving Repr, DecidableEq

/-- `pages_to_analyze = total_pages if max_pages == 0 else min(max_pages, total_pages)`. -/
def pagesToAnalyze (max_pages total_pages : Nat) : Nat :=
  if max_pages = 0 then total_pages else min max_pages total_pages

/-- The inner `try`/`except` around the per-page inference call: on success
the result dictionary holds `response.text` verbatim; on failure it holds
`f"Error analyzing this page: {str(e)}"`. The exception is not re-raised. -/
def analyzePage (infer : String × String → Except String String)
    (prompt img : String) (pageNum : Nat) : AnalysisResult :=
  match infer (prompt, img) with
  | Except.ok t => { page_num := pageNum, analysis := t, image := img }
  | Except.error e =>
      { page_num := pageNum, analysis := "Error analyzing this page: " ++ e, image := img }

/-- The `for page_num in range(pages_to_analyze)` loop body, over an
explicit list of 0-based page indices. A render failure is an uncaught
exception escaping the loop (the `Except.error` outcome); an inference
failure is absorbed by `analyzePage`. On normal termination it returns the
accumulated `results` and the emitted progress updates. -/
def runLoop (render : Nat → Except String String)
    (infer : String × String → Except String String)
    (prompt : String) (n : Nat) :
    List Nat → Except String (List AnalysisResult × List (Nat × Nat))
  | [] => Except.ok ([], [])
  | i :: rest =>
    match render i with
    | Except.error e => Except.error e
    | Except.ok img =>
      let r := analyzePage infer prompt img (i + 1)
      match runLoop render infer prompt n rest with
      | Except.error e => Except.error e
      | Except.ok (rs, ps) => Except.ok (r :: rs, (i + 1, n) :: ps)

/-- `process_pdf(pdf_file, max_pages, prompt)`.

First the uploaded bytes are written to a fresh temporary file
(`delete=False`). Then, inside `try`: the document is opened (`openDoc` is
the outcome of `fitz.open`), `pages_to_analyze` is computed, the per-page
loop runs, and on the success path `doc.close()` and `os.unlink(tmp_path)`
run before `results` is returned. Any exception (open failure or render
failure) reaches the `except` clause, which displays
`f"Error processing PDF: {str(e)}"` and returns `[]` — without unlinking
the temporary file, since the function has no `finally` clause. -/
def process_pdf (fs : FS) (openDoc : Except String PdfDoc) (max_pages : Nat)
    (prompt : String) (infer : String × String → Except String String) : RunOutput :=
  let tmp_path := fs.nextPath
  let fs1 : FS := { tempFiles := fs.tempFiles ++ [tmp_path], nextPath := fs.nextPath + 1 }
  match openDoc with
  | Except.error e =>
      { results := [], fs := fs1, errorMsg := some ("Error processing PDF: " ++ e), progress := [] }
  | Except.ok doc =>
    let n := pagesToAnalyze max_pages doc.page_count
    match runLoop doc.render infer prompt n (List.range n) with
    | Except.error e =>
        { results := [], fs := fs1, errorMsg := some ("Error processing PDF: " ++ e), progress := [] }
    | Except.ok (rs, ps) =>
        { results := rs,
          fs := { tempFiles := fs1.tempFiles.filter (fun p => p != tmp_path),
                  nextPath := fs1.nextPath },
          errorMsg := none,
          progress := ps }

/-- `all_analysis = "\n\n".join([f"**Page {r['page_num']}**:\n{r['analysis']}" for r in results])`. -/
def all_analysis (results : List AnalysisResult) : String :=
  String.intercalate "\n\n"
    (results.map (fun r => "**Page " ++ toString r.page_num ++ "**:\n" ++ r.analysis))

/-- The part of `SUMMARY_PROMPT_TEMPLATE` before the `{all_analysis}` placeholder. -/
def template_before : String :=
  "\nCreate a comprehensive summary of this declassified JFK document based on the following page-by-page analysis:\n\n"

/-- The part of `SUMMARY_PROMPT_TEMPLATE` after the `{all_analysis}` placeholder. -/
def template_after : String :=
  "\n\nYour summary should:\n1. Identify the document type, date, and originating agency\n2. Explain the primary subject matter and purpose\n3. List all key individuals mentioned and their roles\n4. Highlight the most significant revelations or intelligence\n5. Note any apparent redactions or missing information\n6. Explain connections to the Kennedy assassination investigation\n7. Identify any notable inconsistencies or areas requiring further research\n\nFormat your summary with clear headings and bullet points for key findings.\n"

/-- The literal `SUMMARY_PROMPT_TEMPLATE` string of the source. -/
def SUMMARY_PROMPT_TEMPLATE : String :=
  "\nCreate a comprehensive summary of this declassified JFK document based on the following page-by-page analysis:\n\n{all_analysis}\n\nYour summary should:\n1. Identify the document type, date, and originating agency\n2. Explain the primary subject matter and purpose\n3. List all key individuals mentioned and their roles\n4. Highlight the most significant revelations or intelligence\n5. Note any apparent redactions or missing information\n6. Explain connections to the Kennedy assassination investigation\n7. Identify any notable inconsistencies or areas requiring further research\n\nFormat your summary with clear headings and bullet points for key findings.\n"

/-- `summary_prompt = SUMMARY_PROMPT_TEMPLATE.format(all_analysis=all_analysis)`:
the template has exactly one occurrence of the `{all_analysis}` field, so
`str.format` splices the aggregate between the two surrounding template
parts (the decomposition is certified against the literal template in
the theorems below). -/
def summary_prompt (results : List AnalysisResult) : String :=
  template_before ++ all_analysis results ++ template_after

/-- `full_report = f"# JFK Document Analysis: {uploaded_file.name}\n\n## Summary\n\n{summary_response.text}\n\n## Page-by-Page Analysis\n\n{all_analysis}"`. -/
def full_report (filename summary all_a : String) : String :=
  "# JFK Document Analysis: " ++ filename ++ "\n\n## Summary\n\n" ++ summary ++
    "\n\n## Page-by-Page Analysis\n\n" ++ all_a

/-- The full-report format the specification quotes, word for word:
`"# Document Analysis: {filename}\n\n## Summary\n\n{summary}\n\n## Page-by-Page Analysis\n\n{joined per-page text}"`. -/
def spec_quoted_full_report (filename summary all_a : String) : String :=
  "# Document Analysis: " ++ filename ++ "\n\n## Summary\n\n" ++ summary ++
    "\n\n## Page-by-Page Analysis\n\n" ++ all_a

/-- The per-page fragment format the specification quotes for the
Summarizer input: `"Page {index}: {text}"`. -/
def spec_quoted_fragment (r : AnalysisResult) : String :=
  "Page " ++ toString r.page_num ++ ": " ++ r.analysis

/-- The per-page fragment the code actually builds:
`f"**Page {r['page_num']}**:\n{r['analysis']}"`. -/
def pageFragment (r : AnalysisResult) : String :=
  "**Page " ++ toString r.page_num ++ "**:\n" ++ r.analysis

/-- Observable outcome of the results-display section (the `if results:`
branch): the per-page download artifacts
`f"# Analysis of Page {n}\n\n{analysis}"`, the optional full-report
download artifact, the optional `st.error` message, and the optional
displayed summary text. -/
structure SummaryPhase where
  perPageArtifacts : List String
  reportArtifact : Option String
  errorMsg : Option String
  displayedSummary : Option String
deriving Repr, DecidableEq

/-- The results-display section: per-page tabs with download buttons run
first (unconditionally for every collected result), then the summary
section wraps the single summary inference call, the summary display and
the full-report download button in one `try`; its `except` displays
`f"Error generating summary: {str(e)}"` and produces no report. -/
def display_results (filename : String) (results : List AnalysisResult)
    (summarize : String → Except String String) : SummaryPhase :=
  let artifacts := results.map
    (fun r => "# Analysis of Page " ++ toString r.page_num ++ "\n\n" ++ r.analysis)
  match summarize (summary_prompt results) with
  | Except.ok s =>
      { perPageArtifacts := artifacts,
        reportArtifact := some (full_report filename s (all_analysis results)),
        errorMsg := none,
        displayedSummary := some s }
  | Except.error e =>
      { perPageArtifacts := artifacts,
        reportArtifact := none,
        errorMsg := some ("Error generating summary: " ++ e),
        displayedSummary := none }

/-! Concrete capabilities used by witnesses and counterexamples. -/

/-- An empty file system. -/
def fs0 : FS := { tempFiles := [], nextPath := 0 }

/-- A three-page document whose pages all render. -/
def sampleDoc3 : PdfDoc :=
  { page_count := 3, render := fun i => Except.ok ("img" ++ toString i) }

/-- A one-page document whose page renders. -/
def oneDoc : PdfDoc :=
  { page_count := 1, render := fun _ => Except.ok "img0" }

/-- A zero-page document. -/
def emptyDoc : PdfDoc :=
  { page_count := 0, render := fun _ => Except.error "no such page" }

/-- A document whose second page fails to render. -/
def badPageDoc : PdfDoc :=
  { page_count := 3,
    render := fun i => if i = 1 then Except.error "broken page" else Except.ok ("img" ++ toString i) }

/-- A deterministic inference capability that always answers. -/
def okInfer : String × String → Except String String :=
  fun c => Except.ok ("OK:" ++ c.2)

/-- An inference capability that always fails. -/
def failInfer : String × String → Except String String :=
  fun _ => Except.error "quota exceeded"

/-- An inference capability that fails exactly on the image of page 2
(0-based index 1) of `sampleDoc3`. -/
def mixedInfer : String × String → Except String String :=
  fun c => if c.2 = "img1" then Except.error "timeout" else Except.ok ("OK:" ++ c.2)

/-- A one-element results list used by the display-phase witnesses. -/
def sampleResults1 : List AnalysisResult :=
  [{ page_num := 1, analysis := "A", image := "i" }]

instance : DecidableEq (Except String String) := fun a b =>
  match a, b with
  | Except.ok x, Except.ok y =>
    if h : x = y then Decidable.isTrue (congrArg Except.ok h)
    else Decidable.isFalse (fun hc => h (Except.ok.inj hc))
  | Except.ok _, Except.error _ => Decidable.isFalse (fun hc => Except.noConfusion hc)
  | Except.error _, Except.ok _ => Decidable.isFalse (fun hc => Except.noConfusion hc)
  | Except.error x, Except.error y =>
    if h : x = y then Decidable.isTrue (congrArg Except.error h)
    else Decidable.isFalse (fun hc => h (Except.error.inj hc))

/-! Helper lemmas about the loop and the per-page analysis step. -/

theorem analyzePage_page_num (infer : String × String → Except String String)
    (prompt img : String) (p : Nat) : (analyzePage infer prompt img p).page_num = p := by
  unfold analyzePage
  cases infer (prompt, img) <;> rfl

theorem analyzePage_analysis_ok (infer : String × String → Except String String)
    (prompt img : String) (p : Nat) (t : String) (h : infer (prompt, img) = Except.ok t) :
    (analyzePage infer prompt img p).analysis = t := by
  simp [analyzePage, h]

theorem analyzePage_analysis_error (infer : String × String → Except String String)
    (prompt img : String) (p : Nat) (e : String) (h : infer (prompt, img) = Except.error e) :
    (analyzePage infer prompt img p).analysis = "Error analyzing this page: " ++ e := by
  simp [analyzePage, h]

theorem runLoop_all_ok (render : Nat → Except String String)
    (infer : String × String → Except String String) (prompt : String) (n : Nat)
    (img : Nat → String) :
    ∀ l : List Nat, (∀ i ∈ l, render i = Except.ok (img i)) →
      runLoop render infer prompt n l =
        Except.ok (l.map (fun i => analyzePage infer prompt (img i) (i + 1)),
                   l.map (fun i => (i + 1, n)))
  | [], _ => rfl
  | i :: rest, h => by
    have hi : render i = Except.ok (img i) := h i (List.mem_cons_self i rest)
    have ih := runLoop_all_ok render infer prompt n img rest
      (fun j hj => h j (List.mem_cons_of_mem i hj))
    simp [runLoop, hi, ih]

theorem runLoop_render_error (render : Nat → Except String String)
    (infer : String × String → Except String String) (prompt : String) (n : Nat) :
    ∀ l : List Nat, (∃ i ∈ l, ∃ e, render i = Except.error e) →
      ∃ e, runLoop render infer prompt n l = Except.error e := by
  intro l
  induction l with
  | nil => rintro ⟨i, hi, _⟩; exact absurd hi (List.not_mem_nil i)
  | cons i rest ih =>
    rintro ⟨j, hj, e, hje⟩
    rcases List.mem_cons.mp hj with rfl | hjr
    · exact ⟨e, by simp [runLoop, hje]⟩
    · cases hri : render i with
      | error e2 => exact ⟨e2, by simp [runLoop, hri]⟩
      | ok img =>
        rcases ih ⟨j, hjr, e, hje⟩ with ⟨e3, hrec⟩
        exact ⟨e3, by simp [runLoop, hri, hrec]⟩

theorem process_pdf_ok (fs : FS) (doc : PdfDoc) (L : Nat) (prompt : String)
    (infer : String × String → Except String String) (img : Nat → String)
    (hrender : ∀ i < pagesToAnalyze L doc.page_count, doc.render i = Except.ok (img i)) :
    process_pdf fs (Except.ok doc) L prompt infer =
      { results := (List.range (pagesToAnalyze L doc.page_count)).map
          (fun i => analyzePage infer prompt (img i) (i + 1)),
        fs := { tempFiles := (fs.tempFiles ++ [fs.nextPath]).filter (fun p => p != fs.nextPath),
                nextPath := fs.nextPath + 1 },
        errorMsg := none,
        progress := (List.range (pagesToAnalyze L doc.page_count)).map
          (fun i => (i + 1, pagesToAnalyze L doc.page_count)) } := by
  have h := runLoop_all_ok doc.render infer prompt (pagesToAnalyze L doc.page_count) img
    (List.range (pagesToAnalyze L doc.page_count))
    (fun i hi => hrender i (List.mem_range.mp hi))
  simp [process_pdf, h]

theorem pagesToAnalyze_le (L P : Nat) : pagesToAnalyze L P ≤ P := by
  unfold pagesToAnalyze
  split
  · exact Nat.le_refl P
  · exact Nat.min_le_right L P

theorem pagesToAnalyze_le_limit (L P : Nat) (hL : 0 < L) : pagesToAnalyze L P ≤ L := by
  unfold pagesToAnalyze
  rw [if_neg (Nat.pos_iff_ne_zero.mp hL)]
  exact Nat.min_le_left L P

/-! Claim theorems. -/

/-- C2: for every document that opens with `P` pages, every page limit `L`,
and a renderer that succeeds on every targeted page, `process_pdf` returns
results for exactly `P` pages when `L = 0` and exactly `min L P` pages when
`L > 0`. -/
theorem pages_processed_count (fs : FS) (doc : PdfDoc) (L : Nat) (prompt : String)
    (infer : String × String → Except String String) (img : Nat → String)
    (hrender : ∀ i < pagesToAnalyze L doc.page_count, doc.render i = Except.ok (img i)) :
    (process_pdf fs (Except.ok doc) L prompt infer).results.length =
      if L = 0 then doc.page_count else min L doc.page_count := by
  rw [process_pdf_ok fs doc L prompt infer img hrender]
  simp [pagesToAnalyze]

/-- C2 witness: page limit 2 on the 3-page sample document yields
`min 2 3 = 2` results. -/
theorem pages_processed_count_example :
    (process_pdf fs0 (Except.ok sampleDoc3) 2 "p" okInfer).results.length =
      if 2 = 0 then sampleDoc3.page_count else min 2 sampleDoc3.page_count :=
  pages_processed_count fs0 sampleDoc3 2 "p" okInfer (fun i => "img" ++ toString i) (by decide)

/-- C1 counterexample: with page limit `L = 0` on a 1-page document whose
single inference call fails, the run returns 1 result, not
`min 0 1 = 0` as the claim's universally quantified `min(L,P)` count
demands — at `L = 0` the code processes all `P` pages instead. -/
theorem min_formula_fails_at_zero_limit :
    (process_pdf fs0 (Except.ok oneDoc) 0 "p" failInfer).results.length ≠
      min 0 oneDoc.page_count := by decide

/-- C1 (amended): if every targeted page renders, and the inference
capability fails exactly on page `k` (with `1 ≤ k ≤ pages_to_analyze`)
while succeeding on every other page, then the run completes without a
surfaced error and returns `pages_to_analyze` results (`P` when `L = 0`,
else `min L P`); entry `k` holds
`"Error analyzing this page: " ++ cause` and every other entry holds the
capability's response verbatim. -/
theorem single_page_inference_failure_tolerated (fs : FS) (doc : PdfDoc) (L : Nat)
    (prompt : String) (infer : String × String → Except String String)
    (img : Nat → String) (resp : Nat → String) (k : Nat) (cause : String)
    (hrender : ∀ i < pagesToAnalyze L doc.page_count, doc.render i = Except.ok (img i))
    (hk1 : 1 ≤ k) (hk : k ≤ pagesToAnalyze L doc.page_count)
    (hfail : infer (prompt, img (k - 1)) = Except.error cause)
    (hok : ∀ i < pagesToAnalyze L doc.page_count, i ≠ k - 1 →
      infer (prompt, img i) = Except.ok (resp i)) :
    (process_pdf fs (Except.ok doc) L prompt infer).errorMsg = none ∧
    (process_pdf fs (Except.ok doc) L prompt infer).results.length =
      pagesToAnalyze L doc.page_count ∧
    (process_pdf fs (Except.ok doc) L prompt infer).results.map (fun r => r.analysis) =
      (List.range (pagesToAnalyze L doc.page_count)).map
        (fun i => if i = k - 1 then "Error analyzing this page: " ++ cause else resp i) := by
  rw [process_pdf_ok fs doc L prompt infer img hrender]
  refine ⟨rfl, by simp, ?_⟩
  simp only [List.map_map]
  apply List.map_congr_left
  intro i hi
  have hi3 := List.mem_range.mp hi
  by_cases hik : i = k - 1
  · subst hik
    simp [Function.comp,
      analyzePage_analysis_error infer prompt (img (k - 1)) (k - 1 + 1) cause hfail]
  · simp [Function.comp,
      analyzePage_analysis_ok infer prompt (img i) (i + 1) (resp i) (hok i hi3 hik), hik]

/-- C1 witness: the 3-page sample document with limit 0 and an inference
capability failing exactly on page 2's image. -/
theorem single_page_inference_failure_tolerated_example :
    (process_pdf fs0 (Except.ok sampleDoc3) 0 "p" mixedInfer).errorMsg = none ∧
    (process_pdf fs0 (Except.ok sampleDoc3) 0 "p" mixedInfer).results.length =
      pagesToAnalyze 0 sampleDoc3.page_count ∧
    (process_pdf fs0 (Except.ok sampleDoc3) 0 "p" mixedInfer).results.map (fun r => r.analysis) =
      (List.range (pagesToAnalyze 0 sampleDoc3.page_count)).map
        (fun i => if i = 2 - 1 then "Error analyzing this page: " ++ "timeout"
                  else "OK:img" ++ toString i) :=
  single_page_inference_failure_tolerated fs0 sampleDoc3 0 "p" mixedInfer
    (fun i => "img" ++ toString i) (fun i => "OK:img" ++ toString i) 2 "timeout"
    (by decide) (by decide) (by decide) (by decide) (by decide)

/-- C5: for every successful run (document open, all targeted pages
render), the page indices of the returned results are exactly
`1, 2, ..., pages_to_analyze` in order — strictly ascending from 1, no
gaps, no duplicates, each matching its source page — and the number of
results never exceeds the document's page count, nor the page limit when
the limit is positive. -/
theorem analysis_set_ordering_invariant (fs : FS) (doc : PdfDoc) (L : Nat) (prompt : String)
    (infer : String × String → Except String String) (img : Nat → String)
    (hrender : ∀ i < pagesToAnalyze L doc.page_count, doc.render i = Except.ok (img i)) :
    (process_pdf fs (Except.ok doc) L prompt infer).results.map (fun r => r.page_num) =
      (List.range (pagesToAnalyze L doc.page_count)).map (fun i => i + 1) ∧
    (process_pdf fs (Except.ok doc) L prompt infer).results.length ≤ doc.page_count ∧
    (0 < L → (process_pdf fs (Except.ok doc) L prompt infer).results.length ≤ L) := by
  rw [process_pdf_ok fs doc L prompt infer img hrender]
  refine ⟨?_, ?_, ?_⟩
  · simp only [List.map_map]
    apply List.map_congr_left
    intro i _
    simp [Function.comp, analyzePage_page_num]
  · simpa using pagesToAnalyze_le L doc.page_count
  · intro hL
    simpa using pagesToAnalyze_le_limit L doc.page_count hL

/-- C5 witness: the ordering and length bounds at the 3-page sample
document with limit 2. -/
theorem analysis_set_ordering_invariant_example :
    (process_pdf fs0 (Except.ok sampleDoc3) 2 "p" okInfer).results.map (fun r => r.page_num) =
      (List.range (pagesToAnalyze 2 sampleDoc3.page_count)).map (fun i => i + 1) ∧
    (process_pdf fs0 (Except.ok sampleDoc3) 2 "p" okInfer).results.length ≤
      sampleDoc3.page_count ∧
    (0 < 2 → (process_pdf fs0 (Except.ok sampleDoc3) 2 "p" okInfer).results.length ≤ 2) :=
  analysis_set_ordering_invariant fs0 sampleDoc3 2 "p" okInfer
    (fun i => "img" ++ toString i) (by decide)

/-- C3: whenever the decode capability fails — the document does not open,
or some targeted page fails to render — `process_pdf` returns an empty
results list and displays a user-visible error; the per-page results
collected before the failure are discarded. -/
theorem render_failure_yields_empty_results (fs : FS) (openDoc : Except String PdfDoc)
    (L : Nat) (prompt : String) (infer : String × String → Except String String)
    (hfail : (∃ e, openDoc = Except.error e) ∨
      ∃ doc, openDoc = Except.ok doc ∧
        ∃ i < pagesToAnalyze L doc.page_count, ∃ e, doc.render i = Except.error e) :
    (process_pdf fs openDoc L prompt infer).results = [] ∧
    ∃ msg, (process_pdf fs openDoc L prompt infer).errorMsg = some msg := by
  rcases hfail with ⟨e, rfl⟩ | ⟨doc, rfl, i, hi, e, hre⟩
  · exact ⟨rfl, "Error processing PDF: " ++ e, rfl⟩
  · rcases runLoop_render_error doc.render infer prompt (pagesToAnalyze L doc.page_count)
      (List.range (pagesToAnalyze L doc.page_count))
      ⟨i, List.mem_range.mpr hi, e, hre⟩ with ⟨e2, h2⟩
    refine ⟨?_, "Error processing PDF: " ++ e2, ?_⟩ <;> simp [process_pdf, h2]

/-- C3 witness: a 3-page document whose second page fails to render, with
pages 1 and 3 rendering and inference succeeding everywhere. -/
theorem render_failure_yields_empty_results_example :
    (process_pdf fs0 (Except.ok badPageDoc) 0 "p" okInfer).results = [] ∧
    ∃ msg, (process_pdf fs0 (Except.ok badPageDoc) 0 "p" okInfer).errorMsg = some msg :=
  render_failure_yields_empty_results fs0 (Except.ok badPageDoc) 0 "p" okInfer
    (Or.inr ⟨badPageDoc, rfl, 1, by decide, "broken page", by decide⟩)

/-- C4: the claim says the temporary copy of the document is removed on
every exit path, but on the exception path it is not: `process_pdf` has no
finally-style cleanup, so when opening the document fails, the temporary
file (path 0, created from the empty file system) is still on disk when
the run returns, alongside the surfaced error. -/
theorem temp_file_not_removed_on_open_failure :
    (process_pdf fs0 (Except.error "cannot open broken document") 5 "p" okInfer).fs.tempFiles
      = [0] ∧
    (process_pdf fs0 (Except.error "cannot open broken document") 5 "p" okInfer).errorMsg
      = some "Error processing PDF: cannot open broken document" :=
  ⟨rfl, rfl⟩

/-- C9: the returned results depend only on the document, the page limit,
the prompt and the inference capability — not on the ambient file-system
state. Hence two runs with the same inputs and a deterministic inference
capability yield identical result lists (same page indices, same analysis
text, same order), even though the second run starts from the file-system
state the first one left behind. -/
theorem pipeline_run_deterministic (fsA fsB : FS) (openDoc : Except String PdfDoc) (L : Nat)
    (prompt : String) (infer : String × String → Except String String) :
    (process_pdf fsA openDoc L prompt infer).results =
      (process_pdf fsB openDoc L prompt infer).results := by
  cases openDoc with
  | error e => rfl
  | ok doc =>
    cases h : runLoop doc.render infer prompt (pagesToAnalyze L doc.page_count)
        (List.range (pagesToAnalyze L doc.page_count)) with
    | error e => simp [process_pdf, h]
    | ok p => simp [process_pdf, h]

/-- C10: a document that opens with zero pages completes without error:
the loop never runs, no progress update (and hence no fractional-progress
quotient `(page_num + 1) / pages_to_analyze`) is ever computed, no
inference call is made, and the returned results list is empty. -/
theorem zero_page_document_safe (fs : FS) (doc : PdfDoc) (L : Nat) (prompt : String)
    (infer : String × String → Except String String) (hzero : doc.page_count = 0) :
    (process_pdf fs (Except.ok doc) L prompt infer).results = [] ∧
    (process_pdf fs (Except.ok doc) L prompt infer).errorMsg = none ∧
    (process_pdf fs (Except.ok doc) L prompt infer).progress = [] := by
  have hn : pagesToAnalyze L doc.page_count = 0 := by
    simp [pagesToAnalyze, hzero]
  rw [process_pdf_ok fs doc L prompt infer (fun _ => "")
    (fun i hi => absurd (hn ▸ hi) (Nat.not_lt_zero i))]
  simp [hn]

/-- C10 witness: the zero-page sample document with limit 5. -/
theorem zero_page_document_safe_example :
    (process_pdf fs0 (Except.ok emptyDoc) 5 "p" okInfer).results = [] ∧
    (process_pdf fs0 (Except.ok emptyDoc) 5 "p" okInfer).errorMsg = none ∧
    (process_pdf fs0 (Except.ok emptyDoc) 5 "p" okInfer).progress = [] :=
  zero_page_document_safe fs0 emptyDoc 5 "p" okInfer rfl

/-- C6 counterexample: the aggregate the code builds from two results is
not the blank-line join of the spec-quoted fragments
`"Page {index}: {text}"` — the code's fragment is
`"**Page {index}**:\n{text}"`. -/
theorem aggregate_format_differs_from_spec_quote :
    all_analysis [⟨1, "A", "i"⟩, ⟨2, "B", "i"⟩] ≠
      String.intercalate "\n\n"
        (List.map spec_quoted_fragment [⟨1, "A", "i"⟩, ⟨2, "B", "i"⟩]) := by decide

/-- C6 (amended): for every results list, the Summarizer input is built by
formatting each AnalysisResult as `"**Page {index}**:\n{text}"`, joining
the fragments with blank-line separators, and embedding the joined text
into the fixed summary-instruction template at its single
`{all_analysis}` placeholder (the decomposition of the literal template
into the parts before and after the placeholder is certified by the
second conjunct). -/
theorem aggregate_input_structure (results : List AnalysisResult) :
    summary_prompt results =
      template_before ++ String.intercalate "\n\n" (results.map pageFragment) ++
        template_after ∧
    template_before ++ "{all_analysis}" ++ template_after = SUMMARY_PROMPT_TEMPLATE :=
  ⟨rfl, rfl⟩

/-- C7 counterexample: the full-report text the code builds differs from
the spec-quoted format at every input — its header reads
`"# JFK Document Analysis: "`, not `"# Document Analysis: "` — shown here
at a concrete filename, summary and joined page text. -/
theorem report_header_differs_from_spec_quote :
    full_report "doc.pdf" "SUM" "PAGES" ≠ spec_quoted_full_report "doc.pdf" "SUM" "PAGES" := by
  decide

/-- C7 (amended): for every successful run (the summary inference call
returns `s`), the downloadable full report equals
`"# JFK Document Analysis: {filename}\n\n## Summary\n\n{s}\n\n## Page-by-Page Analysis\n\n{joined per-page text}"`,
where the joined per-page text is `all_analysis` of the results in page
order. -/
theorem full_report_structure (filename : String) (results : List AnalysisResult)
    (summarize : String → Except String String) (s : String)
    (hok : summarize (summary_prompt results) = Except.ok s) :
    (display_results filename results summarize).reportArtifact =
      some ("# JFK Document Analysis: " ++ filename ++ "\n\n## Summary\n\n" ++ s ++
        "\n\n## Page-by-Page Analysis\n\n" ++ all_analysis results) := by
  simp [display_results, hok, full_report]

/-- C7 witness: a one-result run whose summarizer answers `"SUM"`. -/
theorem full_report_structure_example :
    (display_results "doc.pdf" sampleResults1 (fun _ => Except.ok "SUM")).reportArtifact =
      some ("# JFK Document Analysis: " ++ "doc.pdf" ++ "\n\n## Summary\n\n" ++ "SUM" ++
        "\n\n## Page-by-Page Analysis\n\n" ++ all_analysis sampleResults1) :=
  full_report_structure "doc.pdf" sampleResults1 (fun _ => Except.ok "SUM") "SUM" rfl

/-- C8: if the single summary inference call fails, the failure is
surfaced as a user-visible error, no full-report artifact and no displayed
summary are produced, while the per-page download artifacts are exactly
the usual `"# Analysis of Page {n}\n\n{text}"` texts — identical to what a
successful summarizer run would have offered. -/
theorem summary_failure_keeps_page_results (filename : String) (results : List AnalysisResult)
    (summarize : String → Except String String) (e : String)
    (hfail : summarize (summary_prompt results) = Except.error e) :
    (display_results filename results summarize).reportArtifact = none ∧
    (display_results filename results summarize).errorMsg =
      some ("Error generating summary: " ++ e) ∧
    (display_results filename results summarize).displayedSummary = none ∧
    (display_results filename results summarize).perPageArtifacts =
      results.map (fun r => "# Analysis of Page " ++ toString r.page_num ++ "\n\n" ++
        r.analysis) ∧
    (display_results filename results summarize).perPageArtifacts =
      (display_results filename results (fun _ => Except.ok "")).perPageArtifacts := by
  refine ⟨?_, ?_, ?_, ?_, ?_⟩ <;> simp [display_results, hfail]

/-- C8 witness: a one-result run whose summarizer fails with `"boom"`. -/
theorem summary_failure_keeps_page_results_example :
    (display_results "doc.pdf" sampleResults1 (fun _ => Except.error "boom")).reportArtifact
      = none ∧
    (display_results "doc.pdf" sampleResults1 (fun _ => Except.error "boom")).errorMsg =
      some ("Error generating summary: " ++ "boom") ∧
    (display_results "doc.pdf" sampleResults1 (fun _ => Except.error "boom")).displayedSummary
      = none ∧
    (display_results "doc.pdf" sampleResults1 (fun _ => Except.error "boom")).perPageArtifacts =
      List.map (fun r : AnalysisResult => "# Analysis of Page " ++ toString r.page_num ++
        "\n\n" ++ r.analysis) sampleResults1 ∧
    (display_results "doc.pdf" sampleResults1 (fun _ => Except.error "boom")).perPageArtifacts =
      (display_results "doc.pdf" sampleResults1 (fun _ => Except.ok "")).perPageArtifacts :=
  summary_failure_keeps_page_results "doc.pdf" sampleResults1 (fun _ => Except.error "boom")
    "boom" rfl

end JFKAnalyzer
